import Mathlib

/-!
# Verification of the powerpool job manager (`powerpool/jobmanager.py`)

A shallow embedding of the job-manager core: the RPC endpoint pool
(`down_connection`, the `_monitor_nodes` probe), the network monitor's
template refresh (`getblocktemplate`), the job builder (`generate_job`)
and the aux-chain monitor (`MonitorAuxChain.update`).  Python state is
modelled as an explicit record; fallible paths return the post-exception
state together with the escaped exception, mirroring the fact that the
monitor loops catch exceptions and the object's attributes persist.

External library primitives (`bits_to_difficulty`, `target_to_difficulty`,
the aux-PoW tree and coinbase/merkle construction from `cryptokit`) are out
of the core's scope; jobs are modelled by the fields the manager itself
sets (`job_id`, `block_height`).
-/

/-- One RPC connection (`bitcoinrpc.AuthServiceProxy` wrapper built in
`MonitorNetwork.__init__`): an identity plus its configured `poll_priority`. -/
structure Conn where
  id : Nat
  poll_priority : Nat
deriving DecidableEq, Repr

/-- How a stratum client reacts when the job manager touches its
`new_block_event` / `new_work_event` attribute: the attribute exists and
`set()` succeeds, the attribute is missing (Python raises
`AttributeError`), or some other exception is raised. -/
inductive SignalBehavior where
  | ok
  | attrError
  | otherError
deriving DecidableEq, Repr

/-- A stratum client as seen from the fan-out loop in `generate_job`:
its signalling behavior and the two event flags. -/
structure Client where
  behavior : SignalBehavior
  newBlockSet : Bool
  newWorkSet : Bool
deriving DecidableEq, Repr

/-- The fields of a `getblocktemplate` result that the job manager reads;
dict equality (`bt != self._last_gbt`) is value equality on these fields. -/
structure Template where
  height : Nat
  coinbasevalue : Nat
  bits : Nat
  transactions : List Nat
deriving DecidableEq, Repr

/-- A merged-work entry as stored in `merged_work[chainid]`
(`hash` and `target`; the `merged_proxy` and `monitor` fields are per-monitor
constant references and always compare equal between the stored and the
rebuilt entry of the same monitor, so they are omitted). -/
structure AuxWork where
  hash : Nat
  target : Nat
deriving DecidableEq, Repr

/-- The fields of a job (`bt_obj`) that `generate_job` itself assigns and
that the claims inspect. -/
structure Job where
  job_id : String
  block_height : Nat
deriving DecidableEq, Repr

/-- The exception kinds escaping the modelled code paths. -/
inductive PyError where
  | attributeError
  | other
deriving DecidableEq, Repr

/-- The mutable attributes of a `MonitorNetwork` instance (together with the
stratum manager's client list, which the fan-out iterates). -/
structure MonitorState where
  live_connections : List Conn
  down_connections : List Conn
  poll_connection : Option Conn
  last_gbt : Option Template
  job_counter : Nat
  jobs : List (String × Job)
  latest_job : Option String
  merged_work : List (Nat × AuxWork)
  current_net_height : Option Nat
  current_net_difficulty : Option Nat
  clients : List Client
deriving DecidableEq, Repr

/-- The state set up by `MonitorNetwork.__init__`: every configured
connection starts in `_down_connections`, everything else empty/`None`. -/
def initState (downs : List Conn) : MonitorState :=
  { live_connections := []
    down_connections := downs
    poll_connection := none
    last_gbt := none
    job_counter := 0
    jobs := []
    latest_job := none
    merged_work := []
    current_net_height := none
    current_net_difficulty := none
    clients := [] }

/-- Python `list.remove`: drop the first occurrence. -/
def removeFirst (conn : Conn) : List Conn → List Conn
  | [] => []
  | c :: cs => if c = conn then cs else c :: removeFirst conn cs

/-- Python `min(live_connections, key=lambda x: x.config['poll_priority'])`:
the first element with the smallest `poll_priority`, `none` when the list is
empty (`min` of an empty sequence raises `ValueError`, which the source
catches and turns into `None`). -/
def argminPoll : List Conn → Option Conn
  | [] => none
  | c :: cs =>
    some (cs.foldl (fun best x =>
      if x.poll_priority < best.poll_priority then x else best) c)

/-- `MonitorNetwork.down_connection` (jobmanager.py:110-131): remove `conn`
from the live list if present; if it was the poll connection, re-elect via
`min(..., key=poll_priority)` (or `None` on an empty live list); append to
the down list unless already there. -/
def down_connection (s : MonitorState) (conn : Conn) : MonitorState :=
  let live :=
    if conn ∈ s.live_connections then removeFirst conn s.live_connections
    else s.live_connections
  let poll :=
    if s.poll_connection = some conn then argminPoll live
    else s.poll_connection
  let down :=
    if conn ∈ s.down_connections then s.down_connections
    else s.down_connections ++ [conn]
  { s with live_connections := live, down_connections := down,
           poll_connection := poll }

/-- One pass of the `_monitor_nodes` probe loop (jobmanager.py:133-163) in
which exactly the down connection `conn` answers `getinfo()`: it is appended
to the live list, removed from the down list, and becomes the poll
connection when there is none or when its `poll_priority` is strictly
higher than the current poll connection's. -/
def probe_success (s : MonitorState) (conn : Conn) : MonitorState :=
  { s with
    live_connections := s.live_connections ++ [conn]
    down_connections := removeFirst conn s.down_connections
    poll_connection :=
      match s.poll_connection with
      | some p => if conn.poll_priority > p.poll_priority then some conn else some p
      | none => some conn }

/-- One hexadecimal digit, lowercase, as produced by `binascii.hexlify`. -/
def hexDigit (n : Nat) : Char :=
  if n < 10 then Char.ofNat (48 + n) else Char.ofNat (87 + n)

/-- The two hex characters of one byte. -/
def byteHex (b : Nat) : List Char :=
  [hexDigit (b / 16 % 16), hexDigit (b % 16)]

/-- `hexlify(struct.pack("I", n))`: the four bytes of `n` as a little-endian
unsigned 32-bit integer, hexlified to 8 lowercase hex digits. -/
def uint32LEHex (n : Nat) : String :=
  String.mk (byteHex (n % 256) ++ byteHex (n / 256 % 256) ++
             byteHex (n / 65536 % 256) ++ byteHex (n / 16777216 % 256))

/-- Python dict assignment `jobs[job_id] = bt_obj` on the insertion-ordered
job table: replace the binding in place when the key exists, else append. -/
def insertJob (jobs : List (String × Job)) (id : String) (j : Job) :
    List (String × Job) :=
  if jobs.any (fun p => p.1 == id) then
    jobs.map (fun p => if p.1 == id then (id, j) else p)
  else jobs ++ [(id, j)]

/-- Dict assignment for `merged_work[chainid] = new_merged_work`. -/
def insertAux (mw : List (Nat × AuxWork)) (cid : Nat) (w : AuxWork) :
    List (Nat × AuxWork) :=
  if mw.any (fun p => p.1 == cid) then
    mw.map (fun p => if p.1 == cid then (cid, w) else p)
  else mw ++ [(cid, w)]

/-- Dict lookup `merged_work.get(chainid)`. -/
def lookupAux (mw : List (Nat × AuxWork)) (cid : Nat) : Option AuxWork :=
  (mw.find? (fun p => p.1 == cid)).map (fun p => p.2)

/-- `cryptokit.bits_to_difficulty`: an external library primitive (out of
the core's scope); modelled as a total placeholder keeping the raw bits,
since no claim inspects the numeric value, only whether it was updated. -/
def bits_to_difficulty (bits : Nat) : Nat := bits

/-- `bitcoin_data.target_to_difficulty`: external library primitive,
modelled like `bits_to_difficulty`. -/
def target_to_difficulty (target : Nat) : Nat := target

/-- The per-client body of the fan-out in `generate_job`
(jobmanager.py:319-326), applied to one client when it does not raise:
set `new_block_event` when flushing, else `new_work_event`; a client whose
attribute is missing is left unchanged (`except AttributeError: pass`). -/
def signalOne (flush : Bool) (c : Client) : Client :=
  match c.behavior with
  | .ok =>
    if flush then { c with newBlockSet := true }
    else { c with newWorkSet := true }
  | _ => c

/-- The fan-out loop over `stratum_manager.clients`
(jobmanager.py:318-326).  Returns the client list after the loop together
with a flag telling whether an uncaught exception escaped: an
`AttributeError` is swallowed and the loop continues; any other exception
propagates, leaving that client and all later clients untouched. -/
def fanOut (flush : Bool) : List Client → List Client × Bool
  | [] => ([], false)
  | c :: cs =>
    match c.behavior with
    | .otherError => (c :: cs, true)
    | .attrError =>
      let r := fanOut flush cs
      (c :: r.1, r.2)
    | .ok =>
      let r := fanOut flush cs
      (signalOne flush c :: r.1, r.2)

/-- `MonitorNetwork.generate_job` (jobmanager.py:250-330).  Returns the
state as left behind when the call returns or when an exception escapes
(second component `true`): early return when no template is cached; on
`push && flush` clear the job table and `latest_job` before installing;
compute `job_id` from the counter, increment the counter, install the job,
set `latest_job`; when pushing, fan the event out to every client; when
`new_block` (and the fan-out did not raise), update
`current_net['difficulty']` from the template bits. -/
def generate_job (s : MonitorState) (push flush new_block : Bool) :
    MonitorState × Bool :=
  match s.last_gbt with
  | none => (s, false)
  | some gbt =>
    let job_id := uint32LEHex s.job_counter
    let bt_obj : Job := { job_id := job_id, block_height := gbt.height }
    let jobs0 := if push && flush then [] else s.jobs
    let jobs1 := insertJob jobs0 job_id bt_obj
    let fo := if push then fanOut flush s.clients else (s.clients, false)
    let diff :=
      if new_block && !fo.2 then some (bits_to_difficulty gbt.bits)
      else s.current_net_difficulty
    ({ s with job_counter := s.job_counter + 1
              jobs := jobs1
              latest_job := some job_id
              clients := fo.1
              current_net_difficulty := diff },
     fo.2)

/-- `MonitorNetwork.getblocktemplate` (jobmanager.py:219-248), with the RPC
result passed in as `fetch` (`none` models a transport or daemon
exception).  On failure the source evaluates `self._down_connection(...)`;
that attribute does not exist on the object (the list is
`_down_connections`, the method is `down_connection`), so Python raises
`AttributeError` before any state change — in particular the endpoint is
not marked down.  On success: `dirty` iff the template differs from the
cached `_last_gbt`; cache it when dirty; regenerate when
`new_block || dirty` with `push=flush=new_block`. -/
def getblocktemplate (s : MonitorState) (fetch : Option Template)
    (new_block : Bool) : MonitorState × Option PyError :=
  match fetch with
  | none => (s, some .attributeError)
  | some bt =>
    let dirty := decide (some bt ≠ s.last_gbt)
    let s1 := if dirty then { s with last_gbt := some bt } else s
    if new_block || dirty then
      let r := generate_job s1 new_block new_block new_block
      (r.1, if r.2 then some .other else none)
    else (s1, none)

/-- The mutable per-chain state of a `MonitorAuxChain`
(`self.state`, plus the per-chain `flush` configuration flag). -/
structure AuxState where
  chain_id : Option Nat
  height : Option Nat
  difficulty : Option Nat
  work_restarts : Nat
  new_jobs : Nat
  flush : Bool
deriving DecidableEq, Repr

/-- The fields of a `getauxblock` RPC response that `update` reads. -/
structure AuxBlockResult where
  hash : Nat
  target : Nat
  chainid : Nat
deriving DecidableEq, Repr

/-- `MonitorAuxChain.update` (jobmanager.py:378-421), with the two RPC
results passed in (`none` models a raised exception).  Steps: bail out when
the primary poll connection is `None`; fetch aux work; write
`state['chain_id']`; compare the rebuilt entry with
`merged_work.get(chainid)` by value and fall through when equal; otherwise
fetch the aux height, store the entry, update `state['difficulty']`; when
the height changed, record it and call `generate_job(push=True,
flush=self.flush)` then bump `work_restarts`; when the height is unchanged
the source evaluates `self.monitor_network.generate_job()`, but the
attribute is named `netmon`, so Python raises `AttributeError` before any
job is generated and before `new_jobs` is bumped.  (The aux RPC failure
paths also leak: the `except RPCException` clauses cannot match the
`CoinRPCException`/`HTTPError` raised by the direct `self.coinserv` calls.) -/
def aux_update (aux : AuxState) (net : MonitorState)
    (auxblock : Option AuxBlockResult) (blockcount : Option Nat) :
    AuxState × MonitorState × Option PyError :=
  if net.poll_connection = none then (aux, net, none)
  else
    match auxblock with
    | none => (aux, net, some .other)
    | some ab =>
      let new_work : AuxWork := { hash := ab.hash, target := ab.target }
      let aux1 := { aux with chain_id := some ab.chainid }
      if lookupAux net.merged_work ab.chainid = some new_work then
        (aux1, net, none)
      else
        match blockcount with
        | none => (aux1, net, some .other)
        | some height =>
          let net1 :=
            { net with merged_work := insertAux net.merged_work ab.chainid new_work }
          let aux2 := { aux1 with difficulty := some (target_to_difficulty ab.target) }
          if aux2.height ≠ some height then
            let aux3 := { aux2 with height := some height }
            let r := generate_job net1 true aux.flush false
            if r.2 then (aux3, r.1, some .other)
            else ({ aux3 with work_restarts := aux3.work_restarts + 1 }, r.1, none)
          else
            (aux2, net1, some .attributeError)

/-- Concrete connection fixtures (ids 0-2, poll priorities 1-3). -/
def cA : Conn := { id := 0, poll_priority := 1 }

/-- See `cA`. -/
def cB : Conn := { id := 1, poll_priority := 2 }

/-- See `cA`. -/
def cC : Conn := { id := 2, poll_priority := 3 }

/-- A concrete block template fixture. -/
def t0 : Template :=
  { height := 100, coinbasevalue := 50, bits := 486604799, transactions := [] }

/-- Cold-start state right after the first template has been cached. -/
def sCold : MonitorState := { initState [] with last_gbt := some t0 }

/-- The state after the probe loop has brought `cA`, `cB`, `cC` live in
that order, starting from the freshly initialised pool. -/
def s3probe : MonitorState :=
  probe_success (probe_success (probe_success (initState [cA, cB, cC]) cA) cB) cC

/-- A client whose event attributes exist and whose `set()` succeeds. -/
def okClient : Client :=
  { behavior := .ok, newBlockSet := false, newWorkSet := false }

/-- A client with no event attributes (signals raise `AttributeError`). -/
def attrClient : Client :=
  { behavior := .attrError, newBlockSet := false, newWorkSet := false }

/-- A client whose signal raises an exception other than `AttributeError`. -/
def badClient : Client :=
  { behavior := .otherError, newBlockSet := false, newWorkSet := false }

/-- Aux-monitor fixture: prior height 5, `flush=false`, fresh counters. -/
def auxA : AuxState :=
  { chain_id := none, height := some 5, difficulty := none,
    work_restarts := 0, new_jobs := 0, flush := false }

/-- Network fixture for the aux monitor: a poll connection and a cached
template, empty merged work. -/
def netA : MonitorState :=
  { initState [] with poll_connection := some cA, last_gbt := some t0 }

/-- Network fixture whose merged work already holds chain 42's entry. -/
def netB : MonitorState :=
  { initState [] with
      poll_connection := some cA
      last_gbt := some t0
      merged_work := [(42, { hash := 7, target := 9 })] }

/-- State with one well-behaved client, for exercising the fan-out. -/
def sW2 : MonitorState :=
  { initState [] with last_gbt := some t0, clients := [okClient] }

/-- State whose client list starts with a client raising a
non-`AttributeError` exception, followed by a well-behaved client. -/
def sC8 : MonitorState :=
  { initState [] with last_gbt := some t0, clients := [badClient, okClient] }

/-- State with a signal-incapable client followed by a capable one. -/
def sW8 : MonitorState :=
  { initState [] with last_gbt := some t0, clients := [attrClient, okClient] }

/-- When no client raises a non-`AttributeError` exception, the fan-out
completes and acts as `signalOne` on every client. -/
theorem fanOut_eq_map (flush : Bool) (l : List Client)
    (h : ∀ c ∈ l, c.behavior ≠ SignalBehavior.otherError) :
    fanOut flush l = (l.map (signalOne flush), false) := by
  induction l with
  | nil => rfl
  | cons c cs ih =>
    have hc := h c (List.mem_cons_self _ _)
    have hcs : ∀ x ∈ cs, x.behavior ≠ SignalBehavior.otherError :=
      fun x hx => h x (List.mem_cons_of_mem _ hx)
    cases hb : c.behavior with
    | otherError => exact absurd hb hc
    | attrError =>
      simp [fanOut, hb, ih hcs, signalOne]
    | ok =>
      simp [fanOut, hb, ih hcs]

/-- C1: the claim states that the poll connection always carries the
maximum `pool_priority` among live connections, and that `down_connection`
on the poll connection re-elects the highest-priority live connection.
The code instead re-elects with `min(live_connections,
key=poll_priority)`, contradicting the probe loop's own
higher-priority-wins upgrade: after the probe has brought priorities
1, 2, 3 live (poll = priority 3) and the poll connection goes down, the
new poll connection has priority 1 while the priority-2 connection is
still live. -/
theorem C1_down_connection_elects_min :
    s3probe.poll_connection = some cC ∧
    (down_connection s3probe cC).poll_connection = some cA ∧
    cB ∈ (down_connection s3probe cC).live_connections ∧
    cA.poll_priority < cB.poll_priority := by
  refine ⟨rfl, rfl, ?_, by decide⟩
  decide

/-- C4: `generate_job` with no cached primary template returns silently
with the entire state unchanged, for every combination of `push`, `flush`
and `new_block`. -/
theorem C4_no_template_noop (s : MonitorState) (p f nb : Bool)
    (h : s.last_gbt = none) :
    generate_job s p f nb = (s, false) := by
  simp [generate_job, h]

/-- Witness for C4 at the freshly initialised state. -/
theorem C4_no_template_noop_witness :
    (initState []).last_gbt = none ∧
    generate_job (initState []) true true true = (initState [], false) :=
  ⟨rfl, C4_no_template_noop (initState []) true true true rfl⟩

/-- C6: the claim states that a failed `getblocktemplate` fetch marks the
poll endpoint down.  The code evaluates `self._down_connection(...)`, an
attribute that does not exist (the list is `_down_connections`, the method
is `down_connection`), so an `AttributeError` escapes and the state — the
live list, the down list, the job table and the job counter — is left
completely unchanged: the endpoint is never marked down. -/
theorem C6_fetch_failure_no_markdown (s : MonitorState) (nb : Bool) :
    getblocktemplate s none nb = (s, some PyError.attributeError) := rfl

/-- C7: the claim states that new aux work at an unchanged aux height
triggers `generate(push=false, flush=false)` and bumps `new_jobs`.  The
code evaluates `self.monitor_network.generate_job()`, but the attribute is
named `netmon`, so an `AttributeError` escapes after the merged-work entry
was stored: no job is generated (the job counter and job table are
untouched) and `new_jobs` stays at 0. -/
theorem C7_same_height_attribute_error :
    aux_update auxA netA (some { hash := 7, target := 9, chainid := 42 }) (some 5) =
      ({ auxA with chain_id := some 42, difficulty := some (target_to_difficulty 9) },
       { netA with merged_work := [(42, { hash := 7, target := 9 })] },
       some PyError.attributeError) := by
  decide

/-- C10: calling `down_connection` on a connection already in the down
list, absent from the live list and different from the poll connection
leaves the state unchanged; and `down_connection` never introduces a
duplicate into the down list. -/
theorem C10_down_connection_idempotent (s : MonitorState) (conn : Conn)
    (h1 : conn ∈ s.down_connections) (h2 : conn ∉ s.live_connections)
    (h3 : s.poll_connection ≠ some conn) :
    down_connection s conn = s ∧
    ∀ (s' : MonitorState) (c : Conn), s'.down_connections.Nodup →
      (down_connection s' c).down_connections.Nodup := by
  constructor
  · simp [down_connection, h1, h2, h3]
  · intro s' c hnd
    by_cases hc : c ∈ s'.down_connections
    · simpa [down_connection, hc] using hnd
    · simp [down_connection, hc, List.nodup_append, hnd]

/-- Witness for C10: a single configured connection, still down. -/
theorem C10_down_connection_idempotent_witness :
    cA ∈ (initState [cA]).down_connections ∧
    cA ∉ (initState [cA]).live_connections ∧
    (initState [cA]).poll_connection ≠ some cA ∧
    down_connection (initState [cA]) cA = initState [cA] :=
  ⟨by decide, by decide, by decide,
   (C10_down_connection_idempotent (initState [cA]) cA (by decide) (by decide)
     (by decide)).1⟩

/-- C2: `generate_job` with `push=true, flush=true` and a cached template
clears the job table and installs the new job, so the table afterwards
holds exactly the new job and `latest_job` is its id; the new-block event
is delivered to every (signal-capable) client in the stratum manager. -/
theorem C2_push_flush_semantics (s : MonitorState) (t : Template) (nb : Bool)
    (hgbt : s.last_gbt = some t)
    (hok : ∀ c ∈ s.clients, c.behavior = SignalBehavior.ok) :
    (generate_job s true true nb).1.jobs =
      [(uint32LEHex s.job_counter,
        { job_id := uint32LEHex s.job_counter, block_height := t.height })] ∧
    (generate_job s true true nb).1.latest_job =
      some (uint32LEHex s.job_counter) ∧
    (generate_job s true true nb).1.clients = s.clients.map (signalOne true) ∧
    ∀ c ∈ (generate_job s true true nb).1.clients, c.newBlockSet = true := by
  have hne : ∀ c ∈ s.clients, c.behavior ≠ SignalBehavior.otherError := by
    intro c hc
    simp [hok c hc]
  have hfo := fanOut_eq_map true s.clients hne
  refine ⟨?_, ?_, ?_, ?_⟩
  · simp [generate_job, hgbt, insertJob]
  · simp [generate_job, hgbt]
  · simp [generate_job, hgbt, hfo]
  · intro c hc
    simp [generate_job, hgbt, hfo] at hc
    obtain ⟨c0, hc0, rfl⟩ := hc
    simp [signalOne, hok c0 hc0]

/-- Witness for C2: one capable client, cold-start counter. -/
theorem C2_push_flush_semantics_witness :
    sW2.last_gbt = some t0 ∧
    (∀ c ∈ sW2.clients, c.behavior = SignalBehavior.ok) ∧
    ((generate_job sW2 true true true).1.jobs =
      [(uint32LEHex sW2.job_counter,
        { job_id := uint32LEHex sW2.job_counter, block_height := t0.height })] ∧
     (generate_job sW2 true true true).1.latest_job =
       some (uint32LEHex sW2.job_counter) ∧
     (generate_job sW2 true true true).1.clients =
       sW2.clients.map (signalOne true) ∧
     ∀ c ∈ (generate_job sW2 true true true).1.clients, c.newBlockSet = true) :=
  ⟨rfl, by decide, C2_push_flush_semantics sW2 t0 true rfl (by decide)⟩

/-- C3: refetching a template byte-equal to the cached one with
`new_block` unset leaves the whole state (in particular the job counter)
unchanged and generates no job; and whenever the job counter did change,
either `new_block` was set or the fetched template differed from the
cached one. -/
theorem C3_template_dedup (s : MonitorState) (bt bt' : Template) (nb : Bool)
    (h : s.last_gbt = some bt) :
    getblocktemplate s (some bt) false = (s, none) ∧
    ((getblocktemplate s (some bt') nb).1.job_counter ≠ s.job_counter →
      nb = true ∨ some bt' ≠ s.last_gbt) := by
  constructor
  · simp [getblocktemplate, h]
  · intro hcount
    by_cases hnb : nb = true
    · exact Or.inl hnb
    · refine Or.inr fun heq => hcount ?_
      have hnb' : nb = false := by
        cases nb
        · rfl
        · exact absurd rfl hnb
      subst hnb'
      simp [getblocktemplate, ← heq]

/-- Witness for C3 at the cold-start cached template. -/
theorem C3_template_dedup_witness :
    sCold.last_gbt = some t0 ∧
    (getblocktemplate sCold (some t0) false = (sCold, none) ∧
     ((getblocktemplate sCold (some t0) false).1.job_counter ≠ sCold.job_counter →
       false = true ∨ some t0 ≠ sCold.last_gbt)) :=
  ⟨rfl, C3_template_dedup sCold t0 t0 false rfl⟩

/-- C5 counterexample: the job counter starts at 0, so the first job
installed on cold start has id `"00000000"`, not `"00000001"`; moreover
the little-endian hexlification of counter value 1 is `"01000000"`, so no
job ever gets the id `"00000001"` claimed for the cold start. -/
theorem C5_first_job_id_counterexample :
    (generate_job sCold true true true).1.latest_job = some "00000000" ∧
    (generate_job sCold true true true).1.latest_job ≠ some "00000001" ∧
    (generate_job sCold true true true).1.jobs =
      [("00000000", { job_id := "00000000", block_height := 100 })] ∧
    uint32LEHex 1 = "01000000" := by
  decide

/-- C5 (amended): job ids are the job counter hexlified as a little-endian
uint32 (8 hex digits), the counter is incremented after the job is built,
and on cold start (counter 0) the first installed job has id `"00000000"`
with `latest_job` equal to it. -/
theorem C5_job_id_encoding (s : MonitorState) (t : Template) (p f nb : Bool)
    (hgbt : s.last_gbt = some t) :
    (generate_job s p f nb).1.latest_job = some (uint32LEHex s.job_counter) ∧
    (generate_job s p f nb).1.job_counter = s.job_counter + 1 ∧
    (uint32LEHex s.job_counter).length = 8 ∧
    (s.job_counter = 0 → uint32LEHex s.job_counter = "00000000") := by
  refine ⟨?_, ?_, ?_, ?_⟩
  · simp [generate_job, hgbt]
  · simp [generate_job, hgbt]
  · rfl
  · intro h0
    rw [h0]
    decide

/-- Witness for C5 (amended) at the cold-start state. -/
theorem C5_job_id_encoding_witness :
    sCold.last_gbt = some t0 ∧
    ((generate_job sCold true true true).1.latest_job =
       some (uint32LEHex sCold.job_counter) ∧
     (generate_job sCold true true true).1.job_counter = sCold.job_counter + 1 ∧
     (uint32LEHex sCold.job_counter).length = 8 ∧
     (sCold.job_counter = 0 → uint32LEHex sCold.job_counter = "00000000")) :=
  ⟨rfl, C5_job_id_encoding sCold t0 true true true rfl⟩

/-- C8 counterexample: the fan-out catches only `AttributeError`.  With a
client list whose first client raises a different exception, the exception
escapes `generate_job` (second component `true`) and the following
signal-capable client is left unsignalled — refuting the claim that a
failure of any kind is swallowed without stopping the fan-out. -/
theorem C8_other_error_aborts_fanout :
    (generate_job sC8 true false false).2 = true ∧
    (generate_job sC8 true false false).1.clients = [badClient, okClient] ∧
    okClient.behavior = SignalBehavior.ok ∧
    okClient.newWorkSet = false := by
  decide

/-- C8 (amended): during the fan-out of a pushed job, only a missing
signal attribute (`AttributeError`) is swallowed: such a client is skipped
unchanged and all remaining clients are still signalled; when no client
raises an exception of another kind the fan-out completes without an
escaping exception. -/
theorem C8_attr_error_isolated (s : MonitorState) (t : Template) (f nb : Bool)
    (hgbt : s.last_gbt = some t)
    (hne : ∀ c ∈ s.clients, c.behavior ≠ SignalBehavior.otherError) :
    (generate_job s true f nb).2 = false ∧
    (generate_job s true f nb).1.clients = s.clients.map (signalOne f) ∧
    ∀ c ∈ s.clients, c.behavior = SignalBehavior.attrError →
      signalOne f c = c := by
  have hfo := fanOut_eq_map f s.clients hne
  refine ⟨?_, ?_, ?_⟩
  · simp [generate_job, hgbt, hfo]
  · simp [generate_job, hgbt, hfo]
  · intro c _ hb
    simp [signalOne, hb]

/-- Witness for C8 (amended): an attribute-less client followed by a
capable one. -/
theorem C8_attr_error_isolated_witness :
    sW8.last_gbt = some t0 ∧
    (∀ c ∈ sW8.clients, c.behavior ≠ SignalBehavior.otherError) ∧
    ((generate_job sW8 true false false).2 = false ∧
     (generate_job sW8 true false false).1.clients =
       sW8.clients.map (signalOne false) ∧
     ∀ c ∈ sW8.clients, c.behavior = SignalBehavior.attrError →
       signalOne false c = c) :=
  ⟨rfl, by decide, C8_attr_error_isolated sW8 t0 false false rfl (by decide)⟩

/-- C9: when `getauxblock` returns work equal by value to the entry stored
under that chain id, the update is a no-op on the shared network state:
`merged_work`, the job table, the job counter and the clients are all
unchanged, no job is generated, and no exception escapes (only the aux
monitor's own `state['chain_id']` is rewritten, before the comparison). -/
theorem C9_aux_noop (aux : AuxState) (net : MonitorState)
    (ab : AuxBlockResult) (bc : Option Nat) (p : Conn)
    (hpoll : net.poll_connection = some p)
    (heq : lookupAux net.merged_work ab.chainid =
      some { hash := ab.hash, target := ab.target }) :
    aux_update aux net (some ab) bc =
      ({ aux with chain_id := some ab.chainid }, net, none) := by
  simp [aux_update, hpoll, heq]

/-- Witness for C9: chain 42's stored entry equals the fetched work. -/
theorem C9_aux_noop_witness :
    netB.poll_connection = some cA ∧
    lookupAux netB.merged_work 42 = some { hash := 7, target := 9 } ∧
    aux_update auxA netB (some { hash := 7, target := 9, chainid := 42 }) (some 5) =
      ({ auxA with chain_id := some 42 }, netB, none) :=
  ⟨rfl, by decide,
   C9_aux_noop auxA netB { hash := 7, target := 9, chainid := 42 } (some 5) cA rfl
     (by decide)⟩
